import Mathlib

/-!
Shallow embedding of `poa.py` (poetry-auto-add).

The package manager (`poetry`) is an external collaborator: each
`subprocess` invocation is modelled by an oracle (`PM`) giving, for the
k-th `poetry show --tree` call, either the tree text or a process failure,
and for the k-th `poetry add` call, a success flag.  Run-scoped mutable
globals (`already_added`, `successfully_added`) become an explicit
`RunState`, which additionally records a trace of observable events
(subprocess calls and per-library outcome messages) in program order.
-/

/-- Python's substring test `needle in hay` on lists of characters. -/
def subMem (needle : List Char) : List Char → Bool
  | [] => needle.isEmpty
  | c :: t => needle.isPrefixOf (c :: t) || subMem needle t

/-- Python's `needle in hay` for strings: substring containment. -/
def pyStrIn (needle hay : String) : Bool :=
  subMem needle.data hay.data

/-- Python's `str.lower()` (ASCII range, the one exercised here):
map `A`–`Z` to `a`–`z` characterwise. -/
def pyToLower (s : String) : String :=
  String.mk (s.data.map Char.toLower)

/-- Python's `\s` (ASCII whitespace), also the character set stripped by
`str.strip()`. -/
def isPySpace (c : Char) : Bool :=
  c == ' ' || c == '\t' || c == '\n' || c == '\r' || c == '\x0b' || c == '\x0c'

/-- Python's `str.strip()`: drop leading and trailing whitespace. -/
def pyStrip (s : String) : String :=
  String.mk (((s.data.dropWhile isPySpace).reverse.dropWhile isPySpace).reverse)

/-- Python's `str.startswith(p)`. -/
def pyStartsWith (s p : String) : Bool :=
  p.data.isPrefixOf s.data

/-- Observable events of a run, in program order: subprocess calls made and
per-library outcome messages printed by `poa.py`. -/
inductive Event where
  /-- `poetry show --tree` invoked while processing `lib` (line 99). -/
  | queryTree (lib : String)
  /-- `poetry add spec` invoked (line 108 or line 115). -/
  | attemptAdd (spec : String)
  /-- info `{lib} already exists in pyproject.toml. Skipping.` (line 101). -/
  | infoAlready (lib : String)
  /-- info `Added {spec} to Poetry.` (line 109 or 116). -/
  | infoAdded (spec : String)
  /-- warning `Failed to add {spec} ... Trying without version constraint.` (line 113). -/
  | warnRetryBare (lib : String)
  /-- warning `Skipping {lib} due to build errors: ...` (line 119). -/
  | warnSkipBuild (lib : String)
  /-- warning `Skipping {lib} due to unresolved installation issues.` (line 121). -/
  | warnSkipUnresolved (lib : String)
  /-- error `Error adding {lib}: ...` (line 124): `poetry show --tree` failed. -/
  | errShow (lib : String)
  /-- warning `Could not parse the requirement line: {line}` (line 141). -/
  | warnBadLine (line : String)
  deriving DecidableEq, Repr

/-- The run-scoped mutable state of `poa.py`: the globals `already_added`
(a set, kept here as a duplicate-free insertion list) and
`successfully_added`, plus the event trace and the number of
`poetry show --tree` (`qCount`) and `poetry add` (`aCount`) calls so far. -/
structure RunState where
  already_added : List String
  successfully_added : List String
  trace : List Event
  qCount : Nat
  aCount : Nat
  deriving DecidableEq, Repr

/-- The initial state of a run (empty globals, line 13–14). -/
def initState : RunState :=
  { already_added := [], successfully_added := [], trace := [], qCount := 0, aCount := 0 }

/-- Oracle for the external package manager: the response of the k-th
`poetry show --tree` call (tree text, or `error` for a
`CalledProcessError`), and whether the k-th `poetry add` call succeeds. -/
structure PM where
  showTree : Nat → Except Unit String
  addOk : Nat → String → Bool

/-- The directive string built at lines 103–106: `library==version` when a
real version is present (Python `if version and version != "*"`), else the
bare name. -/
def dependency_spec (library version : String) : String :=
  if version != "" && version != "*" then library ++ "==" ++ version else library

/-- The declared-check of line 100: case-insensitive substring containment
of the library name in the `poetry show --tree` output. -/
def declared_in_tree (library treeText : String) : Bool :=
  pyStrIn (pyToLower library) (pyToLower treeText)

/-- Embedding of `add_library_to_poetry` (lines 95–124).  Returns the new
run state; the events appended to the trace record the subprocess calls and
printed outcomes in program order. -/
def add_library_to_poetry (pm : PM) (st : RunState) (library version : String)
    (overwrite_existing : Bool) : RunState :=
  if library ∈ st.already_added then st
  else
    match pm.showTree st.qCount with
    | Except.error _ =>
        -- outer `except subprocess.CalledProcessError` (line 123): the
        -- `poetry show --tree` call failed; `already_added` is NOT updated.
        { st with qCount := st.qCount + 1,
                  trace := st.trace ++ [Event.queryTree library, Event.errShow library] }
    | Except.ok treeText =>
        -- line 99–100: `current_deps = output.lower()`,
        -- `library.lower() in current_deps` is `declared_in_tree`.
        let st1 : RunState :=
          { st with qCount := st.qCount + 1,
                    trace := st.trace ++ [Event.queryTree library] }
        if declared_in_tree library treeText && !overwrite_existing then
          -- line 101–102: early return, `already_added` is NOT updated.
          { st1 with trace := st1.trace ++ [Event.infoAlready library] }
        else
          let spec := dependency_spec library version
          let ok1 := pm.addOk st1.aCount spec
          let st2 : RunState :=
            { st1 with aCount := st1.aCount + 1,
                       trace := st1.trace ++ [Event.attemptAdd spec] }
          if ok1 then
            { st2 with successfully_added := st2.successfully_added ++ [spec],
                       trace := st2.trace ++ [Event.infoAdded spec],
                       already_added := st2.already_added ++ [library] }
          else if version != "" && version != "*" then
            let ok2 := pm.addOk st2.aCount library
            let st3 : RunState :=
              { st2 with aCount := st2.aCount + 1,
                         trace := st2.trace ++
                           [Event.warnRetryBare library, Event.attemptAdd library] }
            if ok2 then
              { st3 with successfully_added := st3.successfully_added ++ [library],
                         trace := st3.trace ++ [Event.infoAdded library],
                         already_added := st3.already_added ++ [library] }
            else
              { st3 with trace := st3.trace ++ [Event.warnSkipBuild library],
                         already_added := st3.already_added ++ [library] }
          else
            { st2 with trace := st2.trace ++ [Event.warnSkipUnresolved library],
                       already_added := st2.already_added ++ [library] }

/-- Character class `[A-Za-z0-9._-]` of the requirements regex (line 135),
group 1 (the library token). -/
def isNameChar (c : Char) : Bool :=
  c.isAlphanum || c == '.' || c == '_' || c == '-'

/-- Character class `[\w.+-]` of the requirements regex (line 135), group 3
(the version token); `\w` restricted to its ASCII core `[A-Za-z0-9_]`. -/
def isVerChar (c : Char) : Bool :=
  c.isAlphanum || c == '_' || c == '.' || c == '+' || c == '-'

/-- `re.match(r"([A-Za-z0-9._-]+)(==([\w.+-]+))?", line)` followed by
`version = group(3) or "*"` (lines 135–138): greedy maximal munch for
group 1; the optional group matches only a literal `==` followed by at
least one version character, else it matches empty and the version falls
back to `"*"`.  `none` means the regex did not match at all (line 141). -/
def parseReqLine (line : String) : Option (String × String) :=
  let cs := line.data
  let name := cs.takeWhile isNameChar
  if name.isEmpty then none
  else
    match cs.drop name.length with
    | '=' :: '=' :: vs =>
        let ver := vs.takeWhile isVerChar
        if ver.isEmpty then some (String.mk name, "*")
        else some (String.mk name, String.mk ver)
    | _ => some (String.mk name, "*")

/-- Embedding of the loop body of `parse_requirements_and_add`
(lines 130–141), over the list of raw lines of `requirements.txt`. -/
def parse_requirements_and_add (pm : PM) (st : RunState) (lines : List String)
    (overwrite_existing : Bool) : RunState :=
  match lines with
  | [] => st
  | l :: rest =>
      let line := pyStrip l
      let st1 :=
        if line = "" then st
        else if pyStartsWith line "#" then st
        else
          match parseReqLine line with
          | some (library, version) =>
              add_library_to_poetry pm st library version overwrite_existing
          | none => { st with trace := st.trace ++ [Event.warnBadLine line] }
      parse_requirements_and_add pm st1 rest overwrite_existing

/-- Embedding of `add_venv_packages_to_poetry` (lines 143–150): for each
`pip freeze` entry, skip names already in `already_added`, else add with
the installed version (`None` becomes `"*"`). -/
def add_venv_packages_to_poetry (pm : PM) (st : RunState)
    (venv_packages : List (String × Option String)) (overwrite_existing : Bool) : RunState :=
  match venv_packages with
  | [] => st
  | (library, version) :: rest =>
      let st1 :=
        if library ∈ st.already_added then st
        else
          add_library_to_poetry pm st library
            (match version with
             | some v => if v = "" then "*" else v
             | none => "*") overwrite_existing
      add_venv_packages_to_poetry pm st1 rest overwrite_existing

/-- Consume a literal character sequence off the front of `r`, returning
the remainder, or `none` when `r` does not start with it. -/
def dropLit : List Char → List Char → Option (List Char)
  | [], r => some r
  | c :: cs, d :: r => if c = d then dropLit cs r else none
  | _ :: _, [] => none

/-- `re.match(r'\s*readme\s*=\s*"README\.md"', line)` (line 158): an
anchored prefix match, whitespace-tolerant around `readme` and `=`. -/
def readmeMatch (line : String) : Bool :=
  let t0 := line.data.dropWhile isPySpace
  match dropLit "readme".data t0 with
  | none => false
  | some t1 =>
    match dropLit "=".data (t1.dropWhile isPySpace) with
    | none => false
    | some t2 =>
      (dropLit "\"README.md\"".data (t2.dropWhile isPySpace)).isSome

/-- Embedding of `clean_up_pyproject` (lines 152–160): write back every
line whose `re.match` against the readme pattern fails, in order. -/
def clean_up_pyproject (lines : List String) : List String :=
  match lines with
  | [] => []
  | l :: rest =>
      if readmeMatch l then clean_up_pyproject rest
      else l :: clean_up_pyproject rest

/-- The end-of-run report of `main` (lines 175–182): either the list of
successfully added directive strings, or the distinct no-op message
`No new dependencies were added to Poetry.`. -/
inductive Report where
  | addedDeps (deps : List String)
  | noNew
  deriving DecidableEq, Repr

/-- Lines 175–182: the report is computed from `successfully_added` alone. -/
def finalReport (successfully_added : List String) : Report :=
  if successfully_added = [] then Report.noNew else Report.addedDeps successfully_added

/-- Embedding of the tail of `main` (lines 172–182): process the
requirements lines, then the venv packages, then rewrite `pyproject.toml`
via `clean_up_pyproject`, then report.  Returns the final run state, the
rewritten `pyproject.toml` lines, and the report. -/
def main_run (pm : PM) (reqLines : List String)
    (venvPackages : List (String × Option String)) (pyprojectLines : List String)
    (overwrite : Bool) : RunState × List String × Report :=
  let st1 := parse_requirements_and_add pm initState reqLines overwrite
  let st2 := add_venv_packages_to_poetry pm st1 venvPackages overwrite
  (st2, clean_up_pyproject pyprojectLines, finalReport st2.successfully_added)

/-- The specs passed to `poetry add` during a run, read off the trace. -/
def attemptsOf (tr : List Event) : List String :=
  tr.filterMap (fun e =>
    match e with
    | Event.attemptAdd s => some s
    | _ => none)

/-- Concrete oracle: empty dependency tree, every `poetry add` fails. -/
def pmFailAll : PM :=
  { showTree := fun _ => Except.ok "", addOk := fun _ _ => false }

/-- Concrete oracle: empty dependency tree, every `poetry add` succeeds. -/
def pmOkAll : PM :=
  { showTree := fun _ => Except.ok "", addOk := fun _ _ => true }

/-- Concrete oracle: the tree already lists `six`; adds succeed. -/
def pmSixTree : PM :=
  { showTree := fun _ => Except.ok "six 1.16.0", addOk := fun _ _ => true }

/-- Concrete oracle: tree empty on the first query, lists `six` afterwards
(as it would after a successful add); adds succeed. -/
def pmSixAfter : PM :=
  { showTree := fun k => if k = 0 then Except.ok "" else Except.ok "six (1.16.0)",
    addOk := fun _ _ => true }

/-- Concrete oracle: only the very first `poetry add` succeeds. -/
def pmFirstAddOnly : PM :=
  { showTree := fun _ => Except.ok "", addOk := fun k _ => decide (k = 0) }

/-- Concrete oracle: the tree lists `SixPack` (of which `six` is a
substring after lowercasing); adds succeed. -/
def pmSixPackTree : PM :=
  { showTree := fun _ => Except.ok "SixPack 1.0", addOk := fun _ _ => true }

/-- Concrete oracle: tree empty on the first query, lists `flask`
afterwards (as it would after `Flask==2.0` was added); adds succeed. -/
def pmFlaskAfter : PM :=
  { showTree := fun k => if k = 0 then Except.ok "" else Except.ok "flask 2.0",
    addOk := fun _ _ => true }

/-! ## Helper lemmas -/

theorem attemptsOf_append (a b : List Event) :
    attemptsOf (a ++ b) = attemptsOf a ++ attemptsOf b := by
  simp [attemptsOf, List.filterMap_append]

theorem add_library_mem (pm : PM) (st : RunState) (lib v : String) (ow : Bool)
    (h : lib ∈ st.already_added) : add_library_to_poetry pm st lib v ow = st := by
  simp [add_library_to_poetry, h]

theorem skip_cond_false (lib t : String) (ow : Bool)
    (h : declared_in_tree lib t = false ∨ ow = true) :
    (declared_in_tree lib t && !ow) = false := by
  rcases h with h | h <;> simp [h]

/-- Path lemma: library already in `already_added` is a strict no-op
(this is `add_library_mem`); declared-in-tree with `overwrite=false` skips
with the `already exists` message and does not touch `already_added`. -/
theorem add_library_declared_skip (pm : PM) (st : RunState) (lib v t : String)
    (h1 : lib ∉ st.already_added)
    (h2 : pm.showTree st.qCount = Except.ok t)
    (hd : declared_in_tree lib t = true) :
    add_library_to_poetry pm st lib v false =
      { st with qCount := st.qCount + 1,
                trace := st.trace ++ [Event.queryTree lib, Event.infoAlready lib] } := by
  simp [add_library_to_poetry, h1, h2, hd]

/-- Path lemma: the first `poetry add` attempt succeeds. -/
theorem add_library_first_ok (pm : PM) (st : RunState) (lib v t : String) (ow : Bool)
    (h1 : lib ∉ st.already_added)
    (h2 : pm.showTree st.qCount = Except.ok t)
    (h3 : declared_in_tree lib t = false ∨ ow = true)
    (hok : pm.addOk st.aCount (dependency_spec lib v) = true) :
    add_library_to_poetry pm st lib v ow =
      { already_added := st.already_added ++ [lib],
        successfully_added := st.successfully_added ++ [dependency_spec lib v],
        trace := st.trace ++ [Event.queryTree lib,
          Event.attemptAdd (dependency_spec lib v), Event.infoAdded (dependency_spec lib v)],
        qCount := st.qCount + 1, aCount := st.aCount + 1 } := by
  simp [add_library_to_poetry, h1, h2, skip_cond_false lib t ow h3, hok]

/-- Path lemma: versioned attempt fails, bare retry succeeds. -/
theorem add_library_retry_ok (pm : PM) (st : RunState) (lib v t : String) (ow : Bool)
    (h1 : lib ∉ st.already_added)
    (h2 : pm.showTree st.qCount = Except.ok t)
    (h3 : declared_in_tree lib t = false ∨ ow = true)
    (hv : (v != "" && v != "*") = true)
    (hok1 : pm.addOk st.aCount (dependency_spec lib v) = false)
    (hok2 : pm.addOk (st.aCount + 1) lib = true) :
    add_library_to_poetry pm st lib v ow =
      { already_added := st.already_added ++ [lib],
        successfully_added := st.successfully_added ++ [lib],
        trace := st.trace ++ [Event.queryTree lib,
          Event.attemptAdd (dependency_spec lib v), Event.warnRetryBare lib,
          Event.attemptAdd lib, Event.infoAdded lib],
        qCount := st.qCount + 1, aCount := st.aCount + 2 } := by
  simp [add_library_to_poetry, h1, h2, skip_cond_false lib t ow h3, hv, hok1, hok2]

/-- Path lemma: versioned attempt fails, bare retry fails too. -/
theorem add_library_both_fail (pm : PM) (st : RunState) (lib v t : String) (ow : Bool)
    (h1 : lib ∉ st.already_added)
    (h2 : pm.showTree st.qCount = Except.ok t)
    (h3 : declared_in_tree lib t = false ∨ ow = true)
    (hv : (v != "" && v != "*") = true)
    (hok1 : pm.addOk st.aCount (dependency_spec lib v) = false)
    (hok2 : pm.addOk (st.aCount + 1) lib = false) :
    add_library_to_poetry pm st lib v ow =
      { already_added := st.already_added ++ [lib],
        successfully_added := st.successfully_added,
        trace := st.trace ++ [Event.queryTree lib,
          Event.attemptAdd (dependency_spec lib v), Event.warnRetryBare lib,
          Event.attemptAdd lib, Event.warnSkipBuild lib],
        qCount := st.qCount + 1, aCount := st.aCount + 2 } := by
  simp [add_library_to_poetry, h1, h2, skip_cond_false lib t ow h3, hv, hok1, hok2]

/-- Path lemma: unconstrained attempt fails (no retry tier). -/
theorem add_library_bare_fail (pm : PM) (st : RunState) (lib v t : String) (ow : Bool)
    (h1 : lib ∉ st.already_added)
    (h2 : pm.showTree st.qCount = Except.ok t)
    (h3 : declared_in_tree lib t = false ∨ ow = true)
    (hv : (v != "" && v != "*") = false)
    (hok1 : pm.addOk st.aCount (dependency_spec lib v) = false) :
    add_library_to_poetry pm st lib v ow =
      { already_added := st.already_added ++ [lib],
        successfully_added := st.successfully_added,
        trace := st.trace ++ [Event.queryTree lib,
          Event.attemptAdd (dependency_spec lib v), Event.warnSkipUnresolved lib],
        qCount := st.qCount + 1, aCount := st.aCount + 1 } := by
  simp [add_library_to_poetry, h1, h2, skip_cond_false lib t ow h3, hv, hok1]

/-! ## C1: Add-With-Fallback -/

/-- Claim C1: for a library whose resolved directive carries a version
constraint (`version` truthy and not `"*"`), if the versioned
`poetry add` fails, `add_library_to_poetry` retries with the bare name;
if that also fails the outcome is a skip (`warnSkipBuild`, nothing is
appended to `successfully_added`), no exception escapes (the function
returns a state normally), and the requirements loop continues with the
next candidate line. -/
theorem C1_add_with_fallback (pm : PM) (st : RunState) (lib v t : String) (ow : Bool)
    (h1 : lib ∉ st.already_added)
    (h2 : pm.showTree st.qCount = Except.ok t)
    (h3 : declared_in_tree lib t = false ∨ ow = true)
    (h4 : v ≠ "") (h5 : v ≠ "*")
    (h6 : pm.addOk st.aCount (lib ++ "==" ++ v) = false)
    (h7 : pm.addOk (st.aCount + 1) lib = false) :
    add_library_to_poetry pm st lib v ow =
      { already_added := st.already_added ++ [lib],
        successfully_added := st.successfully_added,
        trace := st.trace ++ [Event.queryTree lib,
          Event.attemptAdd (lib ++ "==" ++ v), Event.warnRetryBare lib,
          Event.attemptAdd lib, Event.warnSkipBuild lib],
        qCount := st.qCount + 1, aCount := st.aCount + 2 } ∧
    attemptsOf (add_library_to_poetry pm st lib v ow).trace =
      attemptsOf st.trace ++ [lib ++ "==" ++ v, lib] ∧
    (∀ line ls, pyStrip line ≠ "" → pyStartsWith (pyStrip line) "#" = false →
      parseReqLine (pyStrip line) = some (lib, v) →
      parse_requirements_and_add pm st (line :: ls) ow =
        parse_requirements_and_add pm (add_library_to_poetry pm st lib v ow) ls ow) := by
  have hv : (v != "" && v != "*") = true := by simp [bne_iff_ne, h4, h5]
  have hspec : dependency_spec lib v = lib ++ "==" ++ v := by simp [dependency_spec, hv]
  have hok1 : pm.addOk st.aCount (dependency_spec lib v) = false := by rw [hspec]; exact h6
  have hmain := add_library_both_fail pm st lib v t ow h1 h2 h3 hv hok1 h7
  rw [hspec] at hmain
  refine ⟨hmain, ?_, ?_⟩
  · rw [hmain]
    simp [attemptsOf_append, attemptsOf]
  · intro line ls hne hhash hparse
    simp only [parse_requirements_and_add, hparse, if_neg hne, hhash, if_false,
      Bool.false_eq_true]

/-- Witness for C1 at a concrete input: empty tree, both adds fail for
`requests==2.31.0`; the attempts are the versioned spec then the bare
name, and `successfully_added` stays empty. -/
theorem C1_add_with_fallback_witness :
    attemptsOf (add_library_to_poetry pmFailAll initState "requests" "2.31.0" false).trace =
      ["requests==2.31.0", "requests"] ∧
    (add_library_to_poetry pmFailAll initState "requests" "2.31.0" false).successfully_added
      = [] := by
  have h := C1_add_with_fallback pmFailAll initState "requests" "2.31.0" "" false
    (by decide) rfl (Or.inl (by decide)) (by decide) (by decide) rfl rfl
  exact ⟨by rw [h.2.1]; rfl, by rw [h.1]; rfl⟩

/-! ## C2: Idempotence -/

/-- Claim C2 is false as stated: when the first occurrence of a candidate
is skipped because the library is already declared (line 101–102 returns
before line 122 updates `already_added`), the second occurrence is NOT
short-circuited and runs `poetry show --tree` a second time.  Concretely:
processing `six` twice against a tree listing `six` issues two manifest
queries, where the claim allows at most one in total. -/
theorem C2_counterexample :
    (add_library_to_poetry pmSixTree initState "six" "*" false).trace =
      [Event.queryTree "six", Event.infoAlready "six"] ∧
    (add_library_to_poetry pmSixTree
      (add_library_to_poetry pmSixTree initState "six" "*" false) "six" "*" false).qCount
      = 2 := by
  decide

/-- Claim C2 (amended): processing the same candidate name a second time
within one run is a strict no-op (no tree query, no add, no state change),
provided the first occurrence proceeded past the declared-check to the add
stage (its tree query succeeded and it was not skipped as already
declared); in that case every path of `add_library_to_poetry` records the
name in `already_added`. -/
theorem C2_amended_idempotence (pm pm2 : PM) (st : RunState) (lib v v2 t : String)
    (ow ow2 : Bool)
    (h1 : lib ∉ st.already_added)
    (h2 : pm.showTree st.qCount = Except.ok t)
    (h3 : declared_in_tree lib t = false ∨ ow = true) :
    add_library_to_poetry pm2 (add_library_to_poetry pm st lib v ow) lib v2 ow2 =
      add_library_to_poetry pm st lib v ow := by
  have hmem : lib ∈ (add_library_to_poetry pm st lib v ow).already_added := by
    cases hok1 : pm.addOk st.aCount (dependency_spec lib v) with
    | true =>
        rw [add_library_first_ok pm st lib v t ow h1 h2 h3 hok1]; simp
    | false =>
        cases hv : (v != "" && v != "*") with
        | true =>
            cases hok2 : pm.addOk (st.aCount + 1) lib with
            | true =>
                rw [add_library_retry_ok pm st lib v t ow h1 h2 h3 hv hok1 hok2]; simp
            | false =>
                rw [add_library_both_fail pm st lib v t ow h1 h2 h3 hv hok1 hok2]; simp
        | false =>
            rw [add_library_bare_fail pm st lib v t ow h1 h2 h3 hv hok1]; simp
  exact add_library_mem pm2 _ lib v2 ow2 hmem

/-- Witness for the amended C2 at a concrete input: after `six` is added
once (empty tree, add succeeds), a second processing of `six` changes
nothing. -/
theorem C2_amended_idempotence_witness :
    add_library_to_poetry pmOkAll
        (add_library_to_poetry pmOkAll initState "six" "*" false) "six" "*" false =
      add_library_to_poetry pmOkAll initState "six" "*" false :=
  C2_amended_idempotence pmOkAll pmOkAll initState "six" "*" "*" "" false false
    (by decide) rfl (Or.inl (by decide))

/-! ## C3: Conflict policy -/

/-- Claim C3: when the candidate's name is found (case-insensitively) in
the dependency-tree output, then with `overwrite=false` no `poetry add` is
invoked and the run logs the `already exists` skip message, and with
`overwrite=true` the candidate is passed to `poetry add` with its resolved
directive `dependency_spec lib v` as the first attempt. -/
theorem C3_conflict_policy (pm : PM) (st : RunState) (lib v t : String)
    (h1 : lib ∉ st.already_added)
    (h2 : pm.showTree st.qCount = Except.ok t)
    (hd : declared_in_tree lib t = true) :
    (add_library_to_poetry pm st lib v false =
        { st with qCount := st.qCount + 1,
                  trace := st.trace ++ [Event.queryTree lib, Event.infoAlready lib] } ∧
      attemptsOf (add_library_to_poetry pm st lib v false).trace = attemptsOf st.trace) ∧
    (∃ rest, attemptsOf (add_library_to_poetry pm st lib v true).trace =
        attemptsOf st.trace ++ dependency_spec lib v :: rest) := by
  have hskip := add_library_declared_skip pm st lib v t h1 h2 hd
  refine ⟨⟨hskip, ?_⟩, ?_⟩
  · rw [hskip]; simp [attemptsOf_append, attemptsOf]
  · cases hok1 : pm.addOk st.aCount (dependency_spec lib v) with
    | true =>
        refine ⟨[], ?_⟩
        rw [add_library_first_ok pm st lib v t true h1 h2 (Or.inr rfl) hok1]
        simp [attemptsOf_append, attemptsOf]
    | false =>
        cases hv : (v != "" && v != "*") with
        | true =>
            cases hok2 : pm.addOk (st.aCount + 1) lib with
            | true =>
                refine ⟨[lib], ?_⟩
                rw [add_library_retry_ok pm st lib v t true h1 h2 (Or.inr rfl) hv hok1 hok2]
                simp [attemptsOf_append, attemptsOf]
            | false =>
                refine ⟨[lib], ?_⟩
                rw [add_library_both_fail pm st lib v t true h1 h2 (Or.inr rfl) hv hok1 hok2]
                simp [attemptsOf_append, attemptsOf]
        | false =>
            refine ⟨[], ?_⟩
            rw [add_library_bare_fail pm st lib v t true h1 h2 (Or.inr rfl) hv hok1]
            simp [attemptsOf_append, attemptsOf]

/-- Witness for C3 at a concrete input: tree lists `six`; with
`overwrite=false` no add is attempted, with `overwrite=true` the first
attempt is the resolved directive `six==1.0`. -/
theorem C3_conflict_policy_witness :
    attemptsOf (add_library_to_poetry pmSixTree initState "six" "1.0" false).trace = [] ∧
    (∃ rest, attemptsOf (add_library_to_poetry pmSixTree initState "six" "1.0" true).trace =
      "six==1.0" :: rest) := by
  have h := C3_conflict_policy pmSixTree initState "six" "1.0" "six 1.16.0"
    (by decide) rfl (by decide)
  refine ⟨by rw [h.1.2]; rfl, ?_⟩
  obtain ⟨r, hr⟩ := h.2
  refine ⟨r, ?_⟩
  rw [hr]
  simp [attemptsOf, initState, dependency_spec]

/-! ## More helper lemmas -/

theorem spec_ne_of_ver_ne (lib v1 v2 : String) (h : v1 ≠ v2) :
    lib ++ "==" ++ v1 ≠ lib ++ "==" ++ v2 := by
  intro he
  apply h
  have hd := congrArg String.data he
  simp only [String.data_append, List.append_assoc] at hd
  exact String.ext (List.append_cancel_left (List.append_cancel_left hd))

theorem spec_ne_bare (lib v : String) : lib ++ "==" ++ v ≠ lib := by
  intro he
  have hl := congrArg String.length he
  have h2 : ("==" : String).length = 2 := rfl
  simp [String.length_append, h2] at hl
  omega

theorem takeWhile_append_all {α} (p : α → Bool) (l1 l2 : List α)
    (h1 : ∀ c ∈ l1, p c = true) :
    (l1 ++ l2).takeWhile p = l1 ++ l2.takeWhile p := by
  induction l1 with
  | nil => simp
  | cons a l ih =>
      simp [List.takeWhile_cons, h1 a (by simp),
        ih (fun c hc => h1 c (by simp [hc]))]

/-- Every path of `add_library_to_poetry` that reaches the add stage
records the library in `already_added` (line 122). -/
theorem add_library_mem_after (pm : PM) (st : RunState) (lib v t : String) (ow : Bool)
    (h1 : lib ∉ st.already_added)
    (h2 : pm.showTree st.qCount = Except.ok t)
    (h3 : declared_in_tree lib t = false ∨ ow = true) :
    lib ∈ (add_library_to_poetry pm st lib v ow).already_added := by
  cases hok1 : pm.addOk st.aCount (dependency_spec lib v) with
  | true => rw [add_library_first_ok pm st lib v t ow h1 h2 h3 hok1]; simp
  | false =>
      cases hv : (v != "" && v != "*") with
      | true =>
          cases hok2 : pm.addOk (st.aCount + 1) lib with
          | true => rw [add_library_retry_ok pm st lib v t ow h1 h2 h3 hv hok1 hok2]; simp
          | false => rw [add_library_both_fail pm st lib v t ow h1 h2 h3 hv hok1 hok2]; simp
      | false => rw [add_library_bare_fail pm st lib v t ow h1 h2 h3 hv hok1]; simp

/-- Every path of `add_library_to_poetry` that reaches the add stage
attempts the resolved directive first, followed by at most the bare-name
fallback. -/
theorem add_library_attempts (pm : PM) (st : RunState) (lib v t : String) (ow : Bool)
    (h1 : lib ∉ st.already_added)
    (h2 : pm.showTree st.qCount = Except.ok t)
    (h3 : declared_in_tree lib t = false ∨ ow = true) :
    ∃ rest, attemptsOf (add_library_to_poetry pm st lib v ow).trace =
      attemptsOf st.trace ++ dependency_spec lib v :: rest ∧ (rest = [] ∨ rest = [lib]) := by
  cases hok1 : pm.addOk st.aCount (dependency_spec lib v) with
  | true =>
      refine ⟨[], ?_, Or.inl rfl⟩
      rw [add_library_first_ok pm st lib v t ow h1 h2 h3 hok1]
      simp [attemptsOf_append, attemptsOf]
  | false =>
      cases hv : (v != "" && v != "*") with
      | true =>
          cases hok2 : pm.addOk (st.aCount + 1) lib with
          | true =>
              refine ⟨[lib], ?_, Or.inr rfl⟩
              rw [add_library_retry_ok pm st lib v t ow h1 h2 h3 hv hok1 hok2]
              simp [attemptsOf_append, attemptsOf]
          | false =>
              refine ⟨[lib], ?_, Or.inr rfl⟩
              rw [add_library_both_fail pm st lib v t ow h1 h2 h3 hv hok1 hok2]
              simp [attemptsOf_append, attemptsOf]
      | false =>
          refine ⟨[], ?_, Or.inl rfl⟩
          rw [add_library_bare_fail pm st lib v t ow h1 h2 h3 hv hok1]
          simp [attemptsOf_append, attemptsOf]

/-- A requirements line that parses to `(lib, v)` is handled by a single
call of `add_library_to_poetry` on `lib` and `v`. -/
theorem parse_one_line (pm : PM) (st : RunState) (line lib v : String) (ow : Bool)
    (h0 : parseReqLine (pyStrip line) = some (lib, v))
    (h1 : pyStrip line ≠ "")
    (h2 : pyStartsWith (pyStrip line) "#" = false) :
    parse_requirements_and_add pm st [line] ow =
      add_library_to_poetry pm st lib v ow := by
  simp only [parse_requirements_and_add, h0, if_neg h1, h2, if_false, Bool.false_eq_true]

/-! ## C4: Version priority -/

/-- Claim C4 is false as stated: `get_venv_packages` lowercases every key
(lines 83 and 85) while both dedup checks (lines 96 and 149) compare names
case-sensitively, so for a mixed-case pin the venv pass misses the dedup
and the environment-derived directive is attempted too.  Concretely: with
requirements `Flask==2.0`, venv `flask` at `9.9` and `overwrite=true`, the
run attempts `Flask==2.0` and then `flask==9.9`, and the environment
directive even succeeds (re-pinning the library) — the requirements pin
does not win. -/
theorem C4_counterexample :
    attemptsOf (add_venv_packages_to_poetry pmFlaskAfter
        (parse_requirements_and_add pmFlaskAfter initState ["Flask==2.0"] true)
        [("flask", some "9.9")] true).trace = ["Flask==2.0", "flask==9.9"] ∧
    "flask==9.9" ∈ (add_venv_packages_to_poetry pmFlaskAfter
        (parse_requirements_and_add pmFlaskAfter initState ["Flask==2.0"] true)
        [("flask", some "9.9")] true).successfully_added := by
  decide

/-- Claim C4 (amended): a library pinned with `==` in `requirements.txt`
is attempted with exactly that pinned version as the first directive of
the run; and provided the venv entry carries the same name string as the
requirements candidate (which holds whenever the pinned name is all
lowercase, since `get_venv_packages` lowercases its keys), the venv pass
(which runs after the requirements pass in `main`) never attempts
`lib==vv`: the environment-derived directive never appears.  For a
mixed-case pinned name the case-sensitive dedup can miss and the
environment-derived directive may additionally be attempted
(`C4_counterexample`). -/
theorem C4_version_priority (pm : PM) (line lib vreq vv t : String) (ow : Bool)
    (h0 : parseReqLine (pyStrip line) = some (lib, vreq))
    (h1 : pyStrip line ≠ "")
    (h2 : pyStartsWith (pyStrip line) "#" = false)
    (h3 : vreq ≠ "") (h4 : vreq ≠ "*")
    (h5 : pm.showTree 0 = Except.ok t)
    (h6 : declared_in_tree lib t = false ∨ ow = true) :
    (attemptsOf (add_venv_packages_to_poetry pm
        (parse_requirements_and_add pm initState [line] ow) [(lib, some vv)] ow).trace).head?
      = some (lib ++ "==" ++ vreq) ∧
    (vv ≠ vreq → (lib ++ "==" ++ vv) ∉ attemptsOf (add_venv_packages_to_poetry pm
        (parse_requirements_and_add pm initState [line] ow) [(lib, some vv)] ow).trace) := by
  have hv : (vreq != "" && vreq != "*") = true := by simp [bne_iff_ne, h3, h4]
  have hspec : dependency_spec lib vreq = lib ++ "==" ++ vreq := by simp [dependency_spec, hv]
  have hreq := parse_one_line pm initState line lib vreq ow h0 h1 h2
  have hinit : lib ∉ initState.already_added := by simp [initState]
  have hmem := add_library_mem_after pm initState lib vreq t ow hinit h5 h6
  obtain ⟨rest, hat, hrest⟩ := add_library_attempts pm initState lib vreq t ow hinit h5 h6
  have hvenv : add_venv_packages_to_poetry pm
      (add_library_to_poetry pm initState lib vreq ow) [(lib, some vv)] ow =
      add_library_to_poetry pm initState lib vreq ow := by
    simp [add_venv_packages_to_poetry, hmem]
  rw [hreq, hvenv, hat, hspec]
  have hnil : attemptsOf initState.trace = [] := rfl
  rw [hnil]
  refine ⟨rfl, ?_⟩
  intro hne hmem2
  rcases hrest with hr | hr
  · rw [hr] at hmem2
    simp only [List.nil_append, List.mem_singleton] at hmem2
    exact spec_ne_of_ver_ne lib vv vreq hne hmem2
  · rw [hr] at hmem2
    simp only [List.nil_append, List.mem_cons, List.mem_singleton] at hmem2
    rcases hmem2 with hx | hx | hx
    · exact spec_ne_of_ver_ne lib vv vreq hne hx
    · exact spec_ne_bare lib vv hx
    · simp at hx

/-- Witness for C4 at a concrete input: `requests==2.31.0` from
requirements, `requests` installed at `9.9.9` in the venv, empty tree;
the only version directive attempted is the requirements pin. -/
theorem C4_version_priority_witness :
    (attemptsOf (add_venv_packages_to_poetry pmOkAll
        (parse_requirements_and_add pmOkAll initState ["requests==2.31.0"] false)
        [("requests", some "9.9.9")] false).trace).head? = some "requests==2.31.0" ∧
    "requests==9.9.9" ∉ attemptsOf (add_venv_packages_to_poetry pmOkAll
        (parse_requirements_and_add pmOkAll initState ["requests==2.31.0"] false)
        [("requests", some "9.9.9")] false).trace := by
  have h := C4_version_priority pmOkAll "requests==2.31.0" "requests" "2.31.0" "9.9.9" ""
    false (by decide) (by decide) (by decide) (by decide) (by decide) rfl
    (Or.inl (by decide))
  exact ⟨h.1, h.2 (by decide)⟩

/-! ## C5: Range passthrough -/

/-- Claim C5 is false as stated: a requirements line `pkg>=1.0` does NOT
pass `>=1.0` through as a range directive.  Group 1 of the regex stops at
`>`, the optional `==` group does not match, the version falls back to
`"*"` and the add is attempted with the bare name `pkg`: the version hint
is silently dropped. -/
theorem C5_counterexample :
    parseReqLine "pkg>=1.0" = some ("pkg", "*") ∧
    attemptsOf (parse_requirements_and_add pmOkAll initState ["pkg>=1.0"] false).trace
      = ["pkg"] ∧
    "pkg>=1.0" ∉
      attemptsOf (parse_requirements_and_add pmOkAll initState ["pkg>=1.0"] false).trace := by
  decide

/-- The concatenation `lib ++ ">=" ++ v` is parsed by the requirements
regex as library `lib` with version falling back to `"*"`. -/
theorem parseReqLine_range (lib v : String)
    (hlib : lib ≠ "")
    (hchars : ∀ c ∈ lib.data, isNameChar c = true) :
    parseReqLine (lib ++ ">=" ++ v) = some (lib, "*") := by
  have hgt : isNameChar '>' = false := by decide
  have hq : (">=" : String).data = ['>', '='] := rfl
  have hdata : (lib ++ ">=" ++ v).data = lib.data ++ '>' :: '=' :: v.data := by
    simp [String.data_append, hq]
  have hname : (lib.data ++ '>' :: '=' :: v.data).takeWhile isNameChar = lib.data := by
    rw [takeWhile_append_all isNameChar lib.data _ hchars]
    simp [List.takeWhile_cons, hgt]
  have hne : lib.data ≠ [] := fun h => hlib (String.ext h)
  simp only [parseReqLine, hdata, hname]
  rw [List.drop_left]
  simp [List.isEmpty_iff, hne]

/-- Claim C5 (amended): a requirements line whose version specifier uses a
comparison operator other than `==` (e.g. `lib>=v`) has its specifier
silently dropped: the regex captures only the name, the version falls back
to `"*"`, and the single directive passed to `poetry add` is the bare
library name, unconstrained. -/
theorem C5_amended_range_dropped (pm : PM) (line lib v t : String) (ow : Bool)
    (h0 : pyStrip line = lib ++ ">=" ++ v)
    (hlib : lib ≠ "")
    (hchars : ∀ c ∈ lib.data, isNameChar c = true)
    (h5 : pm.showTree 0 = Except.ok t)
    (h6 : declared_in_tree lib t = false ∨ ow = true) :
    parseReqLine (pyStrip line) = some (lib, "*") ∧
    attemptsOf (parse_requirements_and_add pm initState [line] ow).trace = [lib] := by
  have hq : (">=" : String).data = ['>', '='] := rfl
  have hparse : parseReqLine (pyStrip line) = some (lib, "*") := by
    rw [h0]; exact parseReqLine_range lib v hlib hchars
  have hSne : pyStrip line ≠ "" := by
    rw [h0]
    intro h
    have hl := congrArg String.length h
    have h2 : (">=" : String).length = 2 := rfl
    simp [String.length_append, h2, String.length_empty] at hl
  have hhash : pyStartsWith (pyStrip line) "#" = false := by
    rw [h0]
    obtain ⟨c, cs, hc⟩ : ∃ c cs, lib.data = c :: cs := by
      cases h : lib.data with
      | nil => exact absurd h (fun hh => hlib (String.ext hh))
      | cons a l => exact ⟨a, l, rfl⟩
    have hcn := hchars c (by rw [hc]; exact List.mem_cons_self c cs)
    have hcne : ('#' == c) = false := by
      apply beq_eq_false_iff_ne.mpr
      intro h
      rw [← h] at hcn
      exact absurd hcn (by decide)
    have hdata : (lib ++ ">=" ++ v).data = c :: (cs ++ '>' :: '=' :: v.data) := by
      simp [String.data_append, hq, hc]
    have hhd : ("#" : String).data = ['#'] := rfl
    simp [pyStartsWith, hdata, hhd, List.isPrefixOf, hcne]
  have hone := parse_one_line pm initState line lib "*" ow hparse hSne hhash
  rw [hone]
  refine ⟨hparse, ?_⟩
  have hinit : lib ∉ initState.already_added := by simp [initState]
  have hspec : dependency_spec lib "*" = lib := by simp [dependency_spec]
  cases hok1 : pm.addOk initState.aCount (dependency_spec lib "*") with
  | true =>
      rw [add_library_first_ok pm initState lib "*" t ow hinit h5 h6 hok1, hspec]
      simp [attemptsOf_append, attemptsOf, initState]
  | false =>
      rw [add_library_bare_fail pm initState lib "*" t ow hinit h5 h6 (by decide) hok1,
        hspec]
      simp [attemptsOf_append, attemptsOf, initState]

/-- Witness for the amended C5 at a concrete input: the line `pkg>=1.0`
parses to `(pkg, "*")` and the run attempts only bare `pkg`. -/
theorem C5_amended_range_dropped_witness :
    parseReqLine (pyStrip "pkg>=1.0") = some ("pkg", "*") ∧
    attemptsOf (parse_requirements_and_add pmOkAll initState ["pkg>=1.0"] false).trace
      = ["pkg"] :=
  C5_amended_range_dropped pmOkAll "pkg>=1.0" "pkg" "1.0" "" false (by decide) (by decide)
    (by decide) rfl (Or.inl (by decide))

/-! ## C6: ProcessedSet case sensitivity -/

/-- Claim C6 is false as stated: `already_added` membership (lines 96 and
122) is exact string matching, not case-insensitive.  After `Six` has been
handled (added successfully), the candidate `six` is NOT treated as
already processed: it is absent from `already_added` and triggers a second
`poetry show --tree` query (the oracle here reports the tree as listing
`six` after the successful add, as poetry would). -/
theorem C6_counterexample :
    "six" ∉ (add_library_to_poetry pmSixAfter initState "Six" "*" false).already_added ∧
    (add_library_to_poetry pmSixAfter initState "Six" "*" false).already_added = ["Six"] ∧
    (add_library_to_poetry pmSixAfter
      (add_library_to_poetry pmSixAfter initState "Six" "*" false) "six" "*" false).qCount
      = 2 := by
  decide

/-- Claim C6 (amended): the processed-set check is case-sensitive — a
candidate short-circuits only when its exact name is in `already_added`;
any candidate whose exact name is absent (in particular one differing only
in letter case from a handled name) runs a fresh manifest query. -/
theorem C6_amended_case_sensitive (pm : PM) (st : RunState) (lib v : String) (ow : Bool)
    (h : lib ∉ st.already_added) :
    (add_library_to_poetry pm st lib v ow).qCount = st.qCount + 1 := by
  unfold add_library_to_poetry
  rw [if_neg h]
  rcases hq : pm.showTree st.qCount with e | t
  · rfl
  · simp only []
    split
    · rfl
    · split
      · rfl
      · split
        · split
          · rfl
          · rfl
        · rfl

/-- Witness for the amended C6 at a concrete input: after handling `Six`,
the differently-cased `six` still triggers a manifest query. -/
theorem C6_amended_case_sensitive_witness :
    (add_library_to_poetry pmSixAfter
        (add_library_to_poetry pmSixAfter initState "Six" "*" false) "six" "*" false).qCount
      = (add_library_to_poetry pmSixAfter initState "Six" "*" false).qCount + 1 :=
  C6_amended_case_sensitive pmSixAfter _ "six" "*" false (by decide)

/-! ## C7: Final report -/

/-- Claim C7 is false as stated: the end-of-run report (lines 175–182) is
computed from `successfully_added` alone and surfaces no skipped list.
Concretely: a run in which `zq` is skipped after both add attempts fail
produces exactly the same report as a run without `zq` at all — the skip
is only streamed as a warning during the run, never surfaced at run end. -/
theorem C7_counterexample :
    (main_run pmFirstAddOnly ["a==1", "zq==2"] [] [] false).2.2
      = Report.addedDeps ["a==1"] ∧
    Event.warnSkipBuild "zq" ∈
      (main_run pmFirstAddOnly ["a==1", "zq==2"] [] [] false).1.trace ∧
    (main_run pmFirstAddOnly ["a==1", "zq==2"] [] [] false).2.2
      = (main_run pmFirstAddOnly ["a==1"] [] [] false).2.2 := by
  decide

/-- Claim C7 (amended): at run end only the added list is surfaced — the
report is `finalReport` of `successfully_added`, listing the directive
strings that succeeded; skipped candidates appear only as streamed
warnings in the trace, not in the report; and an empty added list yields
the distinct no-op report `Report.noNew`. -/
theorem C7_amended_report (pm : PM) (req : List String)
    (venv : List (String × Option String)) (py : List String) (ow : Bool) :
    (main_run pm req venv py ow).2.2
      = finalReport (main_run pm req venv py ow).1.successfully_added ∧
    ((main_run pm req venv py ow).1.successfully_added = [] →
      (main_run pm req venv py ow).2.2 = Report.noNew) ∧
    ((main_run pm req venv py ow).1.successfully_added ≠ [] →
      (main_run pm req venv py ow).2.2
        = Report.addedDeps (main_run pm req venv py ow).1.successfully_added) ∧
    (∀ ds, Report.addedDeps ds ≠ Report.noNew) := by
  refine ⟨rfl, ?_, ?_, ?_⟩
  · intro h
    simp only [main_run] at h ⊢
    simp [finalReport, h]
  · intro h
    simp only [main_run] at h ⊢
    simp [finalReport, h]
  · intro ds h
    exact Report.noConfusion h

/-- Witness for the amended C7 at concrete inputs: an empty run reports
the no-op outcome; a run that added `a` reports the added list. -/
theorem C7_amended_report_witness :
    (main_run pmOkAll [] [] [] false).2.2 = Report.noNew ∧
    (main_run pmOkAll ["a"] [] [] false).2.2
      = Report.addedDeps (main_run pmOkAll ["a"] [] [] false).1.successfully_added := by
  constructor
  · exact (C7_amended_report pmOkAll [] [] [] false).2.1 rfl
  · exact (C7_amended_report pmOkAll ["a"] [] [] false).2.2.1 (by decide)

/-! ## C8: Manifest query semantics -/

/-- Claim C8: the declared-check is exactly case-insensitive substring
containment of the lowercased name in the lowercased tree text: with
`overwrite=false`, no `poetry add` is invoked if and only if the
containment holds — so a name occurring as a substring of another declared
name is treated as already declared (false positive by design). -/
theorem C8_manifest_query (pm : PM) (st : RunState) (lib v t : String)
    (h1 : lib ∉ st.already_added)
    (h2 : pm.showTree st.qCount = Except.ok t) :
    declared_in_tree lib t = pyStrIn (pyToLower lib) (pyToLower t) ∧
    (attemptsOf (add_library_to_poetry pm st lib v false).trace = attemptsOf st.trace
      ↔ pyStrIn (pyToLower lib) (pyToLower t) = true) := by
  refine ⟨rfl, ?_, ?_⟩
  · intro h
    by_contra hd
    have hd' : declared_in_tree lib t = false := by
      simpa [declared_in_tree, Bool.not_eq_true] using hd
    obtain ⟨rest, hat, _⟩ := add_library_attempts pm st lib v t false h1 h2 (Or.inl hd')
    rw [h] at hat
    have hl := congrArg List.length hat
    simp [List.length_append] at hl
  · intro hd
    rw [add_library_declared_skip pm st lib v t h1 h2
      (by simpa [declared_in_tree] using hd)]
    simp [attemptsOf_append, attemptsOf]

/-- Witness for C8 at a concrete input exhibiting the by-design false
positive: with the tree listing only `SixPack`, the candidate `six` is
treated as already declared and never passed to `poetry add`. -/
theorem C8_manifest_query_witness :
    attemptsOf (add_library_to_poetry pmSixPackTree initState "six" "1.0" false).trace
      = attemptsOf initState.trace :=
  (C8_manifest_query pmSixPackTree initState "six" "1.0" "SixPack 1.0"
    (by decide) rfl).2.mpr (by decide)

/-! ## C9: Name normalization -/

/-- Claim C9 is false against this code: `.` is inside the regex name
class `[A-Za-z0-9._-]`, so the raw token `six.moves` yields the candidate
`six.moves` unchanged — not the top-level segment `six` — and that full
dotted name is what gets passed to `poetry add`.  (No builtin filtering
exists in this code either; both normalizations are delegated to the
external `pipreqs` tool that writes `requirements.txt`.) -/
theorem C9_counterexample :
    parseReqLine "six.moves" = some ("six.moves", "*") ∧
    attemptsOf (parse_requirements_and_add pmOkAll initState ["six.moves"] false).trace
      = ["six.moves"] ∧
    "six" ∉
      attemptsOf (parse_requirements_and_add pmOkAll initState ["six.moves"] false).trace := by
  decide

/-- Claim C9 (amended): this code performs no name normalization at all —
every nonempty token made of name characters (dots, underscores and dashes
included, standard-library names included) is kept whole as the candidate
name, with version `"*"` when no `==` pin follows. -/
theorem C9_amended_no_normalization (token : String)
    (h1 : token ≠ "")
    (h2 : ∀ c ∈ token.data, isNameChar c = true) :
    parseReqLine token = some (token, "*") := by
  have hname : token.data.takeWhile isNameChar = token.data := by
    have h := takeWhile_append_all isNameChar token.data [] h2
    simpa using h
  have hne : token.data ≠ [] := fun h => h1 (String.ext h)
  simp only [parseReqLine, hname]
  rw [List.drop_length]
  simp [List.isEmpty_iff, hne]

/-- Witness for the amended C9 at concrete inputs: the dotted token
`six.moves` stays whole, and the standard-library name `os` still yields a
candidate. -/
theorem C9_amended_no_normalization_witness :
    parseReqLine "six.moves" = some ("six.moves", "*") ∧
    parseReqLine "os" = some ("os", "*") :=
  ⟨C9_amended_no_normalization "six.moves" (by decide) (by decide),
   C9_amended_no_normalization "os" (by decide) (by decide)⟩

/-! ## C10: clean_up_pyproject frame effect -/

/-- Claim C10: at the end of every run `main` rewrites the
`pyproject.toml` lines through `clean_up_pyproject`, which deletes exactly
the lines matching the anchored pattern `\s*readme\s*=\s*"README\.md"`
(optional leading whitespace) and writes every other line back unchanged
and in the same order (it is the filter on the non-matching lines). -/
theorem C10_cleanup_frame (pm : PM) (req : List String)
    (venv : List (String × Option String)) (py lines : List String) (ow : Bool) :
    (main_run pm req venv py ow).2.1 = clean_up_pyproject py ∧
    clean_up_pyproject lines = lines.filter (fun l => !readmeMatch l) ∧
    readmeMatch "readme = \"README.md\"" = true ∧
    readmeMatch "   readme = \"README.md\"" = true ∧
    readmeMatch "name = \"poetry-auto-add\"" = false := by
  refine ⟨rfl, ?_, by decide, by decide, by decide⟩
  induction lines with
  | nil => rfl
  | cons l rest ih =>
      by_cases h : readmeMatch l
      · simp [clean_up_pyproject, h, ih]
      · simp [clean_up_pyproject, h, ih]
